import Mathlib

/-!
Verification of the catalog filter engine of `visible_server_node/src/server.ts`.

Strings are modelled as `List Char`; JavaScript string operations
(`toLowerCase`, `includes`, `split(/\s+/)`, `replace(/\s+/g, '')`) are
embedded as executable functions on `List Char`.  JS `\s` is modelled as
ASCII whitespace, and `toLowerCase` as per-character `Char.toLower`; every
string literal appearing in the filter code and in the claims is ASCII,
where the two agree with JavaScript.  Prices (JS numbers) are modelled as
rationals: the filter code only compares prices with `<` and never does
arithmetic on them, so the order structure is all that matters.
Optional fields are `Option`; JS truthiness of an optional string
(`undefined` and `""` are falsy) is `truthy`.
-/

/-- ASCII whitespace, modelling the JS regex class `\s` on the ASCII range. -/
def isWs (c : Char) : Bool :=
  c == ' ' || c == '\t' || c == '\n' || c == '\r' || c == '\x0b' || c == '\x0c'

/-- `s.toLowerCase()` on the character-list model. -/
def toLowerStr (s : List Char) : List Char :=
  s.map Char.toLower

/-- Coerce a `String` literal into the character-list model. -/
def str (s : String) : List Char :=
  s.toList

/-- JS `x ?? ""` for an optional string. -/
def getStr : Option (List Char) → List Char
  | none => []
  | some s => s

/-- JS truthiness of an optional string: `undefined` and `""` are falsy. -/
def truthy : Option (List Char) → Bool
  | none => false
  | some s => !s.isEmpty

@[simp]
theorem getStr_some (s : List Char) : getStr (some s) = s := rfl

@[simp]
theorem getStr_none : getStr none = [] := rfl

@[simp]
theorem truthy_none : truthy none = false := rfl

/-- Does `hay` start with `needle`?  (Empty `needle` always succeeds.) -/
def strStartsWith : List Char → List Char → Bool
  | _, [] => true
  | [], _ :: _ => false
  | c :: cs, d :: ds => c == d && strStartsWith cs ds

/-- JS `hay.includes(needle)`: contiguous-substring containment. -/
def strIncludes (hay needle : List Char) : Bool :=
  match hay with
  | [] => strStartsWith [] needle
  | c :: rest => strStartsWith (c :: rest) needle || strIncludes rest needle

/-- Worker for `splitWs`: `acc` is the reversed current chunk and `inRun`
records whether the previous character was whitespace (whose chunk was
already emitted). -/
def splitWsGo (l : List Char) (acc : List Char) (inRun : Bool) : List (List Char) :=
  match l with
  | [] => [acc.reverse]
  | c :: cs =>
    if isWs c then
      if inRun then splitWsGo cs [] true
      else acc.reverse :: splitWsGo cs [] true
    else splitWsGo cs (c :: acc) false

/-- JS `s.split(/\s+/)`: chunks between maximal whitespace runs, keeping the
(possibly empty) chunks before the first run and after the last, and
returning `[""]` on the empty string. -/
def splitWs (l : List Char) : List (List Char) :=
  splitWsGo l [] false

/-- JS `s.replace(/\s+/g, '')`: remove every whitespace character. -/
def stripWs (l : List Char) : List Char :=
  l.filter (fun c => !isWs c)

/-- JS `parts.join(" ")`. -/
def joinSpace : List (List Char) → List Char
  | [] => []
  | [s] => s
  | s :: rest => s ++ ' ' :: joinSpace rest

/-- The `{value, currency}` price objects of the JSON catalogs; only `value`
is ever read by the filter code. -/
structure PriceField where
  value : Option Rat
deriving Repr, DecidableEq

/-- `DeviceRecord` of `server.ts` (the fields the filter engine reads). -/
structure DeviceRecord where
  id : List Char
  title : List Char
  description : Option (List Char) := none
  brand : Option (List Char) := none
  product_category : Option (List Char) := none
  availability : Option (List Char) := none
  inventory_quantity : Option Int := none
  sale_price : Option PriceField := none
  price : Option PriceField := none
  color : Option (List Char) := none
  size : Option (List Char) := none
  condition : Option (List Char) := none
deriving Repr, DecidableEq

/-- `PlanRecord` of `server.ts` (the fields the filter engine reads). -/
structure PlanRecord where
  id : List Char
  title : List Char
  description : Option (List Char) := none
  product_category : Option (List Char) := none
  sale_price : Option PriceField := none
  price : Option PriceField := none
deriving Repr, DecidableEq

/-- The zod enum for the `availability` filter. -/
inductive Availability where
  | in_stock
  | out_of_stock
deriving Repr, DecidableEq

/-- The zod enum for the `billingTerm` filter (`multi-month` is `multiMonth`). -/
inductive BillingTerm where
  | monthly
  | annual
  | multiMonth
deriving Repr, DecidableEq

/-- The zod enum for the `category` discriminator. -/
inductive Category where
  | devices
  | plans
deriving Repr, DecidableEq

/-- `ToolInput`, the parsed tool-call filters of `server.ts`. -/
structure ToolInput where
  category : Option Category := none
  query : Option (List Char) := none
  brand : Option (List Char) := none
  productCategory : Option (List Char) := none
  minPrice : Option Rat := none
  maxPrice : Option Rat := none
  availability : Option Availability := none
  color : Option (List Char) := none
  size : Option (List Char) := none
  condition : Option (List Char) := none
  billingTerm : Option BillingTerm := none
deriving Repr, DecidableEq

/-- `devicePrice`: `device.sale_price?.value ?? device.price?.value ?? null`. -/
def devicePrice (device : DeviceRecord) : Option Rat :=
  match device.sale_price.bind PriceField.value with
  | some v => some v
  | none => device.price.bind PriceField.value

/-- `planPrice`: `plan.sale_price?.value ?? plan.price?.value ?? null`. -/
def planPrice (plan : PlanRecord) : Option Rat :=
  match plan.sale_price.bind PriceField.value with
  | some v => some v
  | none => plan.price.bind PriceField.value

/-- `matchesAvailability` of `server.ts`. -/
def matchesAvailability (device : DeviceRecord) (desired : Option Availability) : Bool :=
  match desired with
  | none => true
  | some d =>
    let inStock :=
      device.availability == some (str ("in_stock")) &&
        device.inventory_quantity.getD 0 > 0
    match d with
    | .in_stock => inStock
    | .out_of_stock => !inStock

/-- The `SearchableRecord` view used by `matchesQuery`. -/
structure SearchableRecord where
  title : Option (List Char) := none
  description : Option (List Char) := none
  brand : Option (List Char) := none
  product_category : Option (List Char) := none
deriving Repr, DecidableEq

/-- A device viewed as a `SearchableRecord`. -/
def deviceSearchable (device : DeviceRecord) : SearchableRecord :=
  { title := some device.title
    description := device.description
    brand := device.brand
    product_category := device.product_category }

/-- A plan viewed as a `SearchableRecord`: plans carry no `brand` property,
so the JS property access yields `undefined`. -/
def planSearchable (plan : PlanRecord) : SearchableRecord :=
  { title := some plan.title
    description := plan.description
    brand := none
    product_category := plan.product_category }

/-- `productTypeMapping` of `matchesQuery`, in JS object-key insertion order. -/
def productTypeMapping : List (List Char × List (List Char)) :=
  [ (str ("iphone"), [str ("mobile phones")]),
    (str ("ipad"), [str ("mobile phones"), str ("tablets")]),
    (str ("galaxy"), [str ("mobile phones")]),
    (str ("pixel"), [str ("mobile phones")]),
    (str ("watch"), [str ("wearables")]),
    (str ("iwatch"), [str ("wearables")]) ]

/-- The `for`-loop of `matchesQuery` over `productTypeMapping`: `some b`
models an early `return b`, `none` falling through to the general search. -/
def gateLoop (mapping : List (List Char × List (List Char)))
    (queryLower productCategory title : List Char) : Option Bool :=
  match mapping with
  | [] => none
  | (productName, allowedCategories) :: rest =>
    if strIncludes queryLower productName then
      if allowedCategories.any (fun cat => strIncludes productCategory cat) then
        some (strIncludes title queryLower ||
          (splitWs queryLower).all (fun word => strIncludes title word))
      else some false
    else gateLoop rest queryLower productCategory title

/-- `matchesQuery` of `server.ts`. -/
def matchesQuery (record : SearchableRecord) (query : Option (List Char)) : Bool :=
  if !truthy query then true
  else
    let queryLower := toLowerStr (getStr query)
    let title := toLowerStr (getStr record.title)
    let description := toLowerStr (getStr record.description)
    let brand := toLowerStr (getStr record.brand)
    let productCategory := toLowerStr (getStr record.product_category)
    match gateLoop productTypeMapping queryLower productCategory title with
    | some b => b
    | none =>
      let haystack :=
        toLowerStr (joinSpace
          (([title, description, brand, productCategory]).filter (fun s => !s.isEmpty)))
      let queryWords := splitWs queryLower
      if queryWords.length == 1 then strIncludes haystack (queryWords.headD [])
      else queryWords.all (fun word => strIncludes haystack word)

/-- The `filters.color` check of `filterDevices`. -/
def colorOk (device : DeviceRecord) (color : Option (List Char)) : Bool :=
  if truthy color then
    strIncludes (toLowerStr (getStr device.color)) (toLowerStr (getStr color))
  else true

/-- The `filters.size` check of `filterDevices`: the query size is tried with
all whitespace stripped and as given, against the stored size as substring. -/
def sizeOk (device : DeviceRecord) (sizeQ : Option (List Char)) : Bool :=
  if truthy sizeQ then
    let deviceSize := toLowerStr (getStr device.size)
    let filterSize := toLowerStr (getStr sizeQ)
    strIncludes deviceSize (stripWs filterSize) || strIncludes deviceSize filterSize
  else true

/-- The `filters.condition` check of `filterDevices`, mapping the query
condition "refurbished" to "used". -/
def conditionOk (device : DeviceRecord) (conditionQ : Option (List Char)) : Bool :=
  if truthy conditionQ then
    let deviceCondition := toLowerStr (getStr device.condition)
    let fc0 := toLowerStr (getStr conditionQ)
    let fc := if fc0 == str ("refurbished") then str ("used") else fc0
    strIncludes deviceCondition fc
  else true

/-- The two price checks of `filterDevices` / `filterPlans`:
`minPrice !== undefined && (price === null || price < minPrice)` rejects,
and symmetrically for `maxPrice`. -/
def priceOk (price : Option Rat) (minPrice maxPrice : Option Rat) : Bool :=
  (match minPrice with
   | none => true
   | some m =>
     match price with
     | none => false
     | some v => !decide (v < m)) &&
  (match maxPrice with
   | none => true
   | some m =>
     match price with
     | none => false
     | some v => !decide (m < v))

/-- The body of the `filterDevices` predicate after the Apple-brand
heuristic: brand, productCategory, availability, query, color, size,
condition and price checks, in source order. -/
def devicePassesNoHeuristic (device : DeviceRecord) (filters : ToolInput) : Bool :=
  if truthy filters.brand &&
      !(toLowerStr (getStr device.brand) == toLowerStr (getStr filters.brand)) then
    false
  else if truthy filters.productCategory &&
      !(toLowerStr (getStr device.product_category) ==
        toLowerStr (getStr filters.productCategory)) then
    false
  else if !matchesAvailability device filters.availability then false
  else if !matchesQuery (deviceSearchable device) filters.query then false
  else if !colorOk device filters.color then false
  else if !sizeOk device filters.size then false
  else if !conditionOk device filters.condition then false
  else priceOk (devicePrice device) filters.minPrice filters.maxPrice

/-- The full `filterDevices` predicate: first the special handling that drops
wearables when the brand filter is a truthy "apple" and the query is falsy,
then the remaining checks. -/
def devicePasses (device : DeviceRecord) (filters : ToolInput) : Bool :=
  if truthy filters.brand && toLowerStr (getStr filters.brand) == str ("apple") &&
      !truthy filters.query &&
      strIncludes (toLowerStr (getStr device.product_category)) (str ("wearables")) then
    false
  else devicePassesNoHeuristic device filters

/-- `filterDevices` of `server.ts`. -/
def filterDevices (devices : List DeviceRecord) (filters : ToolInput) : List DeviceRecord :=
  devices.filter (fun device => devicePasses device filters)

/-- `planBillingTerm` of `server.ts`: derived from the lowercased title. -/
def planBillingTerm (plan : PlanRecord) : BillingTerm :=
  let title := toLowerStr plan.title
  if strIncludes title (str ("annual")) then .annual
  else if strIncludes title (str ("6m")) || strIncludes title (str ("6 m")) ||
      strIncludes title (str ("6 ")) then .multiMonth
  else .monthly

/-- The `filterPlans` predicate: query, price and billing-term checks. -/
def planPasses (plan : PlanRecord) (filters : ToolInput) : Bool :=
  if !matchesQuery (planSearchable plan) filters.query then false
  else if !priceOk (planPrice plan) filters.minPrice filters.maxPrice then false
  else
    match filters.billingTerm with
    | none => true
    | some bt => planBillingTerm plan == bt

/-- `filterPlans` of `server.ts`. -/
def filterPlans (plans : List PlanRecord) (filters : ToolInput) : List PlanRecord :=
  plans.filter (fun plan => planPasses plan filters)

/-- The two-item sample catalog of the spec's category-exclusivity and
Apple-brand examples: an Apple phone. -/
def iPhone14 : DeviceRecord :=
  { id := str ("d1")
    title := str ("iPhone 14")
    brand := some (str ("Apple"))
    product_category := some (str ("Mobile Phones")) }

/-- The two-item sample catalog, second item: an Apple wearable. -/
def appleWatch9 : DeviceRecord :=
  { id := str ("d2")
    title := str ("Apple Watch Series 9")
    brand := some (str ("Apple"))
    product_category := some (str ("Wearables")) }

example : matchesQuery (deviceSearchable iPhone14) (some (str ("iphone"))) = true := by decide
example : matchesQuery (deviceSearchable appleWatch9) (some (str ("iphone"))) = false := by decide
example : filterDevices [iPhone14, appleWatch9] { query := some (str ("iphone")) } = [iPhone14] := by decide
example : filterDevices [iPhone14, appleWatch9] { query := some (str ("watch")) } = [appleWatch9] := by decide
example : filterDevices [iPhone14, appleWatch9] { brand := some (str ("Apple")) } = [iPhone14] := by decide
example : filterDevices [iPhone14, appleWatch9] { brand := some (str ("Apple")), query := some (str ("watch")) } = [appleWatch9] := by decide

/-- A sample plan record used to instantiate plan-side theorems. -/
def visiblePlan : PlanRecord :=
  { id := str ("p1")
    title := str ("Visible+ Plan")
    price := some { value := some 395 } }

/-- Filtering a list twice with one predicate equals filtering once. -/
theorem filter_self_idem {α : Type} (p : α → Bool) (l : List α) :
    (l.filter p).filter p = l.filter p := by
  induction l with
  | nil => rfl
  | cons a t ih => cases h : p a <;> simp [List.filter_cons, h, ih]

/-- A min bound above a max bound makes the price checks reject any price. -/
theorem priceOk_min_gt_max (price : Option Rat) (a b : Rat) (h : b < a) :
    priceOk price (some a) (some b) = false := by
  cases price with
  | none => rfl
  | some v =>
    simp only [priceOk]
    by_cases hv : v < a
    · simp [hv]
    · have hbv : b < v := lt_of_lt_of_le h (le_of_not_lt hv)
      simp [hv, hbv]

/-- With contradictory price bounds no device passes the filter predicate. -/
theorem devicePasses_min_gt_max (device : DeviceRecord) (f : ToolInput) (a b : Rat)
    (hmin : f.minPrice = some a) (hmax : f.maxPrice = some b) (hab : b < a) :
    devicePasses device f = false := by
  have hp : priceOk (devicePrice device) f.minPrice f.maxPrice = false := by
    rw [hmin, hmax]; exact priceOk_min_gt_max _ _ _ hab
  simp [devicePasses, devicePassesNoHeuristic, hp]

/-- With contradictory price bounds no plan passes the filter predicate. -/
theorem planPasses_min_gt_max (plan : PlanRecord) (f : ToolInput) (a b : Rat)
    (hmin : f.minPrice = some a) (hmax : f.maxPrice = some b) (hab : b < a) :
    planPasses plan f = false := by
  have hp : priceOk (planPrice plan) f.minPrice f.maxPrice = false := by
    rw [hmin, hmax]; exact priceOk_min_gt_max _ _ _ hab
  simp [planPasses, hp]

/-- C7: filtering is idempotent — filtering an already filtered catalog with
the same query changes nothing, for devices and for plans. -/
theorem c7_filter_idempotence (devices : List DeviceRecord) (plans : List PlanRecord)
    (f : ToolInput) :
    filterDevices (filterDevices devices f) f = filterDevices devices f ∧
      filterPlans (filterPlans plans f) f = filterPlans plans f :=
  ⟨filter_self_idem _ devices, filter_self_idem _ plans⟩

/-- C8: order preservation — the output of the filter is a sublist
(subsequence in original relative order, no reordering, duplication or
modification) of the input catalog, for devices and for plans.  The
embedded filters are pure functions, so the input catalog itself is
unchanged by the call. -/
theorem c8_order_preservation (devices : List DeviceRecord) (plans : List PlanRecord)
    (f : ToolInput) :
    List.Sublist (filterDevices devices f) devices ∧
      List.Sublist (filterPlans plans f) plans :=
  ⟨List.filter_sublist devices, List.filter_sublist plans⟩

/-- C9: total, error-free degradation — the embedded filters are total Lean
functions, and a query whose min price exceeds its max price yields zero
matches on every device catalog and every plan catalog. -/
theorem c9_min_above_max_empty (devices : List DeviceRecord) (plans : List PlanRecord)
    (f : ToolInput) (a b : Rat)
    (hmin : f.minPrice = some a) (hmax : f.maxPrice = some b) (hab : b < a) :
    filterDevices devices f = [] ∧ filterPlans plans f = [] := by
  constructor
  · unfold filterDevices
    exact List.filter_eq_nil_iff.mpr fun d _ => by
      simp [devicePasses_min_gt_max d f a b hmin hmax hab]
  · unfold filterPlans
    exact List.filter_eq_nil_iff.mpr fun p _ => by
      simp [planPasses_min_gt_max p f a b hmin hmax hab]

/-- A query with min price 2 above max price 1. -/
def contradictoryFilters : ToolInput :=
  { minPrice := some 2, maxPrice := some 1 }

/-- Witness for C9 at a concrete catalog and concrete contradictory bounds. -/
theorem c9_min_above_max_empty_witness :
    filterDevices [iPhone14, appleWatch9] contradictoryFilters = [] ∧
      filterPlans [visiblePlan] contradictoryFilters = [] :=
  c9_min_above_max_empty [iPhone14, appleWatch9] [visiblePlan] contradictoryFilters 2 1
    rfl rfl (by norm_num)

/-- C10: plans are unaffected by device-only filters — two queries agreeing
on `query`, `minPrice`, `maxPrice` and `billingTerm` produce identical
`filterPlans` results however they differ elsewhere. -/
theorem c10_plans_ignore_device_fields (plans : List PlanRecord) (f1 f2 : ToolInput)
    (hq : f1.query = f2.query) (hmin : f1.minPrice = f2.minPrice)
    (hmax : f1.maxPrice = f2.maxPrice) (hbt : f1.billingTerm = f2.billingTerm) :
    filterPlans plans f1 = filterPlans plans f2 := by
  unfold filterPlans
  refine List.filter_congr fun p _ => ?_
  unfold planPasses
  rw [hq, hmin, hmax, hbt]

/-- A query setting every device-only filter alongside the plan filters. -/
def planFiltersNoisy : ToolInput :=
  { query := some (str ("visible"))
    brand := some (str ("Apple"))
    productCategory := some (str ("Wearables"))
    availability := some .in_stock
    color := some (str ("red"))
    size := some (str ("128GB"))
    condition := some (str ("new"))
    billingTerm := some .monthly }

/-- The same query with every device-only filter absent. -/
def planFiltersQuiet : ToolInput :=
  { query := some (str ("visible"))
    billingTerm := some .monthly }

/-- Witness for C10 at a concrete plan catalog and concrete query pair. -/
theorem c10_plans_ignore_device_fields_witness :
    filterPlans [visiblePlan] planFiltersNoisy = filterPlans [visiblePlan] planFiltersQuiet :=
  c10_plans_ignore_device_fields [visiblePlan] planFiltersNoisy planFiltersQuiet
    rfl rfl rfl rfl

/-- A device whose stored size contains a space. -/
def dev128Spaced : DeviceRecord :=
  { id := str ("d3")
    title := str ("Spaced Size Device")
    size := some (str ("128 GB")) }

/-- A device whose stored size has no whitespace. -/
def dev128Compact : DeviceRecord :=
  { id := str ("d4")
    title := str ("Compact Size Device")
    size := some (str ("128GB")) }

/-- C1 as stated: the size filter is symmetric under whitespace, i.e. any
stored size equal to the query size up to case and whitespace matches. -/
def sizeSymClaim : Prop :=
  ∀ (d : DeviceRecord) (storedSize qs : List Char), d.size = some storedSize →
    stripWs (toLowerStr storedSize) = stripWs (toLowerStr qs) →
    sizeOk d (some qs) = true

/-- C1 counterexample: a stored size "128 GB" does not match the query size
"128GB", because only the query side is whitespace-stripped. -/
theorem c1_size_counterexample : ¬ sizeSymClaim := fun h =>
  absurd (h dev128Spaced (str ("128 GB")) (str ("128GB")) rfl (by decide)) (by decide)

/-- C1 amended: only the query size is normalized — the stored size matches
when it contains the query size with all whitespace stripped or as given
(case-insensitively); hence stored "128GB" matches query sizes "128 GB"
and "128GB", while stored "128 GB" matches "128 GB" but not "128GB". -/
theorem c1_size_amended (d : DeviceRecord) (qs : List Char) (hq : qs ≠ []) :
    (sizeOk d (some qs) = true ↔
      (strIncludes (toLowerStr (getStr d.size)) (stripWs (toLowerStr qs)) = true ∨
        strIncludes (toLowerStr (getStr d.size)) (toLowerStr qs) = true)) ∧
    sizeOk dev128Compact (some (str ("128 GB"))) = true ∧
    sizeOk dev128Compact (some (str ("128GB"))) = true ∧
    sizeOk dev128Spaced (some (str ("128 GB"))) = true ∧
    sizeOk dev128Spaced (some (str ("128GB"))) = false := by
  refine ⟨?_, by decide, by decide, by decide, by decide⟩
  have ht : truthy (some qs) = true := by
    cases qs with
    | nil => exact absurd rfl hq
    | cons c cs => rfl
  simp [sizeOk, ht, Bool.or_eq_true]

/-- Witness for C1 amended at the concrete spaced-size device. -/
theorem c1_size_amended_witness :
    sizeOk dev128Spaced (some (str ("128GB"))) = false :=
  (c1_size_amended dev128Spaced (str ("128GB")) (by decide)).2.2.2.2

/-- C3 as stated: an Apple-brand query with no free-text query excludes
wearables, and supplying any free-text query bypasses the exclusion. -/
def appleHeuristicClaim : Prop :=
  (∀ (d : DeviceRecord) (f : ToolInput) (b : List Char),
    f.brand = some b → toLowerStr b = str ("apple") → f.query = none →
    strIncludes (toLowerStr (getStr d.product_category)) (str ("wearables")) = true →
    devicePasses d f = false) ∧
  (∀ (d : DeviceRecord) (f : ToolInput) (s : List Char),
    f.query = some s → devicePasses d f = devicePassesNoHeuristic d f)

/-- The Apple-brand query carrying an empty free-text query. -/
def brandAppleEmptyQuery : ToolInput :=
  { brand := some (str ("Apple")), query := some [] }

/-- C3 counterexample: supplying the empty-string free-text query does not
bypass the wearables exclusion — JS `!filters.query` treats `""` as
absent, so the heuristic still fires. -/
theorem c3_apple_counterexample : ¬ appleHeuristicClaim := fun h =>
  absurd (h.2 appleWatch9 brandAppleEmptyQuery [] rfl) (by decide)

/-- The Apple-brand query with no free-text query. -/
def brandAppleOnly : ToolInput :=
  { brand := some (str ("Apple")) }

/-- The Apple-brand query with free-text query "watch". -/
def brandAppleWatchQuery : ToolInput :=
  { brand := some (str ("Apple")), query := some (str ("watch")) }

/-- C3 amended: a query whose brand is a truthy string lowercasing to
"apple" and whose free-text query is falsy (absent or empty) excludes every
item whose productCategory contains "wearables"; any nonempty free-text
query bypasses the heuristic entirely; concretely, `{brand: "Apple"}` keeps
only the phone of the two-item Apple catalog while
`{brand: "Apple", query: "watch"}` keeps only the wearable. -/
theorem c3_apple_amended :
    (∀ (d : DeviceRecord) (f : ToolInput) (b : List Char),
      f.brand = some b → toLowerStr b = str ("apple") → truthy f.query = false →
      strIncludes (toLowerStr (getStr d.product_category)) (str ("wearables")) = true →
      devicePasses d f = false) ∧
    (∀ (d : DeviceRecord) (f : ToolInput) (s : List Char),
      f.query = some s → s ≠ [] → devicePasses d f = devicePassesNoHeuristic d f) ∧
    filterDevices [iPhone14, appleWatch9] brandAppleOnly = [iPhone14] ∧
    filterDevices [iPhone14, appleWatch9] brandAppleWatchQuery = [appleWatch9] := by
  refine ⟨?_, ?_, by decide, by decide⟩
  · intro d f b hb hlow hq hw
    have hbt : truthy (some b) = true := by
      cases b with
      | nil => exact absurd hlow (by decide)
      | cons c cs => rfl
    simp [devicePasses, hb, hbt, hlow, hq, hw]
  · intro d f s hq hs
    have hqt : truthy f.query = true := by
      rw [hq]
      cases s with
      | nil => exact absurd rfl hs
      | cons c cs => rfl
    simp [devicePasses, hqt]

/-- Witness for C3 amended at the concrete wearable device and queries. -/
theorem c3_apple_amended_witness :
    devicePasses appleWatch9 brandAppleOnly = false ∧
    devicePasses appleWatch9 brandAppleWatchQuery =
      devicePassesNoHeuristic appleWatch9 brandAppleWatchQuery :=
  ⟨c3_apple_amended.1 appleWatch9 brandAppleOnly (str ("Apple")) rfl (by decide) rfl (by decide),
   c3_apple_amended.2.1 appleWatch9 brandAppleWatchQuery (str ("watch")) rfl (by decide)⟩

/-- The price checks pass exactly when a resolvable price lies within the
given bounds (inclusive), provided at least one bound is given. -/
theorem priceOk_iff (price minP maxP : Option Rat) (hb : minP ≠ none ∨ maxP ≠ none) :
    priceOk price minP maxP = true ↔
      ∃ p, price = some p ∧ (∀ m, minP = some m → m ≤ p) ∧ (∀ m, maxP = some m → p ≤ m) := by
  rcases price with _ | v
  · constructor
    · intro h
      exfalso
      rcases minP with _ | m1
      · rcases maxP with _ | m2
        · rcases hb with hb | hb <;> exact hb rfl
        · simp [priceOk] at h
      · simp [priceOk] at h
    · rintro ⟨p, hp, -, -⟩
      cases hp
  · rcases minP with _ | m1 <;> rcases maxP with _ | m2 <;>
      simp [priceOk, not_lt]

/-- A device with a sale price of 50 and no list price. -/
def salePrice50Device : DeviceRecord :=
  { id := str ("d50")
    title := str ("Sale Priced Device")
    sale_price := some { value := some 50 } }

/-- C4: for a price-bounded query the price predicate passes exactly when
the device has an effective price (sale price value if present, else list
price value) within the inclusive bounds; a device with no resolvable
price fails every price-bounded query; a device with sale price 50 and no
list price matches bounds [50, 50] but not a min bound of 51. -/
theorem c4_price_range (d : DeviceRecord) (f : ToolInput)
    (hb : f.minPrice ≠ none ∨ f.maxPrice ≠ none) :
    (priceOk (devicePrice d) f.minPrice f.maxPrice = true ↔
      ∃ p, devicePrice d = some p ∧
        (∀ m, f.minPrice = some m → m ≤ p) ∧ (∀ m, f.maxPrice = some m → p ≤ m)) ∧
    (devicePrice d = none → priceOk (devicePrice d) f.minPrice f.maxPrice = false) ∧
    priceOk (devicePrice salePrice50Device) (some 50) (some 50) = true ∧
    priceOk (devicePrice salePrice50Device) (some 51) none = false := by
  refine ⟨priceOk_iff _ _ _ hb, ?_, by decide, by decide⟩
  intro hnone
  cases hpo : priceOk (devicePrice d) f.minPrice f.maxPrice with
  | false => rfl
  | true =>
    rcases (priceOk_iff _ _ _ hb).mp hpo with ⟨p, hp, -, -⟩
    rw [hnone] at hp
    cases hp

/-- The price-bounded query of the spec's price-boundary example. -/
def bounds5050 : ToolInput :=
  { minPrice := some 50, maxPrice := some 50 }

/-- Witness for C4 at the concrete sale-priced device and concrete bounds. -/
theorem c4_price_range_witness :
    priceOk (devicePrice salePrice50Device) (some 50) (some 50) = true ∧
    priceOk (devicePrice salePrice50Device) (some 51) none = false :=
  ⟨(c4_price_range salePrice50Device bounds5050 (Or.inl (by decide))).2.2.1,
   (c4_price_range salePrice50Device bounds5050 (Or.inl (by decide))).2.2.2⟩

/-- A plan titled so that its derived billing term is annual. -/
def annualPlan : PlanRecord :=
  { id := str ("p2")
    title := str ("Visible+ Annual Plan")
    price := some { value := some 275 } }

/-- The query of the billing-term example: only `billingTerm` is set. -/
def btAnnualOnly : ToolInput :=
  { billingTerm := some .annual }

/-- C6: the derived billing term is annual when the lowercased title
contains "annual", else multi-month when it contains one of the
6-month-like substrings "6m", "6 m" or "6 ", else monthly; and when only
`billingTerm` is set, `filterPlans` keeps exactly the plans whose derived
billing term equals it. -/
theorem c6_billing_term (p : PlanRecord) (plans : List PlanRecord) (f : ToolInput)
    (bt : BillingTerm) (hq : f.query = none) (hmin : f.minPrice = none)
    (hmax : f.maxPrice = none) (hbt : f.billingTerm = some bt) :
    (strIncludes (toLowerStr p.title) (str ("annual")) = true →
      planBillingTerm p = .annual) ∧
    (strIncludes (toLowerStr p.title) (str ("annual")) = false →
      (strIncludes (toLowerStr p.title) (str ("6m")) ||
        strIncludes (toLowerStr p.title) (str ("6 m")) ||
        strIncludes (toLowerStr p.title) (str ("6 "))) = true →
      planBillingTerm p = .multiMonth) ∧
    (strIncludes (toLowerStr p.title) (str ("annual")) = false →
      (strIncludes (toLowerStr p.title) (str ("6m")) ||
        strIncludes (toLowerStr p.title) (str ("6 m")) ||
        strIncludes (toLowerStr p.title) (str ("6 "))) = false →
      planBillingTerm p = .monthly) ∧
    filterPlans plans f = plans.filter (fun q => planBillingTerm q == bt) := by
  refine ⟨?_, ?_, ?_, ?_⟩
  · intro h
    simp [planBillingTerm, h]
  · intro h1 h2
    simp [planBillingTerm, h1, h2]
  · intro h1 h2
    simp only [Bool.or_eq_false_iff] at h2
    simp [planBillingTerm, h1, h2.1.1, h2.1.2, h2.2]
  · unfold filterPlans
    refine List.filter_congr fun q _ => ?_
    simp [planPasses, hq, hmin, hmax, hbt, matchesQuery, priceOk]

/-- Witness for C6 at a concrete annual plan and concrete billing-term query. -/
theorem c6_billing_term_witness :
    planBillingTerm annualPlan = .annual ∧
    filterPlans [annualPlan, visiblePlan] btAnnualOnly =
      ([annualPlan, visiblePlan]).filter (fun q => planBillingTerm q == BillingTerm.annual) :=
  ⟨(c6_billing_term annualPlan [annualPlan, visiblePlan] btAnnualOnly .annual
      rfl rfl rfl rfl).1 (by decide),
   (c6_billing_term annualPlan [annualPlan, visiblePlan] btAnnualOnly .annual
      rfl rfl rfl rfl).2.2.2⟩

/-- The first entry of a token mapping whose token occurs in the query —
the only entry the `matchesQuery` loop ever acts on. -/
def firstToken (mapping : List (List Char × List (List Char)))
    (queryLower : List Char) : Option (List Char × List (List Char)) :=
  match mapping with
  | [] => none
  | (tok, cats) :: rest =>
    if strIncludes queryLower tok then some (tok, cats) else firstToken rest queryLower

/-- A hit of `firstToken` occurs in the query and belongs to the mapping. -/
theorem firstToken_props (mapping : List (List Char × List (List Char)))
    (q tok : List Char) (cats : List (List Char))
    (h : firstToken mapping q = some (tok, cats)) :
    strIncludes q tok = true ∧ (tok, cats) ∈ mapping := by
  induction mapping with
  | nil => simp [firstToken] at h
  | cons a rest ih =>
    obtain ⟨tk, cs⟩ := a
    by_cases hinc : strIncludes q tk = true
    · simp only [firstToken, hinc, if_pos, Option.some.injEq, Prod.mk.injEq] at h
      obtain ⟨h1, h2⟩ := h
      subst h1
      subst h2
      exact ⟨hinc, List.mem_cons_self _ _⟩
    · simp only [firstToken, hinc, if_neg, Bool.not_eq_true] at h
      rcases ih h with ⟨ha, hm⟩
      exact ⟨ha, List.mem_cons_of_mem _ hm⟩

/-- If the first token hit of the query has no allowed category occurring in
the item's category, the gating loop rejects the item outright. -/
theorem gateLoop_firstToken_reject (mapping : List (List Char × List (List Char)))
    (q c t tok : List Char) (cats : List (List Char))
    (h : firstToken mapping q = some (tok, cats))
    (hc : cats.any (fun cat => strIncludes c cat) = false) :
    gateLoop mapping q c t = some false := by
  induction mapping with
  | nil => simp [firstToken] at h
  | cons a rest ih =>
    obtain ⟨tk, cs⟩ := a
    by_cases hinc : strIncludes q tk = true
    · simp only [firstToken, hinc, if_pos, Option.some.injEq, Prod.mk.injEq] at h
      obtain ⟨h1, h2⟩ := h
      subst h1
      subst h2
      simp [gateLoop, hinc, hc]
    · simp only [firstToken, hinc, if_neg, Bool.not_eq_true] at h
      simp [gateLoop, hinc, ih h]

/-- Every token of `productTypeMapping` is nonempty. -/
theorem productTypeMapping_tokens_ne_nil (tok : List Char) (cats : List (List Char))
    (h : (tok, cats) ∈ productTypeMapping) : tok ≠ [] := by
  simp only [productTypeMapping, List.mem_cons, List.not_mem_nil, or_false,
    Prod.mk.injEq] at h
  rcases h with ⟨h, -⟩ | ⟨h, -⟩ | ⟨h, -⟩ | ⟨h, -⟩ | ⟨h, -⟩ | ⟨h, -⟩ <;> subst h <;> decide

/-- C2 as stated: whenever the lowercased query contains a mapped
product-name token, any item accepted by `matchesQuery` has a
productCategory containing one of that token's allowed categories. -/
def textGateClaim : Prop :=
  ∀ (r : SearchableRecord) (q tok : List Char) (cats : List (List Char)),
    (tok, cats) ∈ productTypeMapping →
    strIncludes (toLowerStr q) tok = true →
    matchesQuery r (some q) = true →
    cats.any (fun cat => strIncludes (toLowerStr (getStr r.product_category)) cat) = true

/-- A mobile-phone item whose title contains both "iphone" and "watch". -/
def iphoneWatchRecord : SearchableRecord :=
  { title := some (str ("iphone watch"))
    product_category := some (str ("Mobile Phones")) }

/-- C2 counterexample: the gating loop stops at the first token found, so
the query "iphone watch" is gated only by "iphone" — the accepted
mobile-phone item has no "wearables" category although the query also
contains the token "watch". -/
theorem c2_gate_counterexample : ¬ textGateClaim := fun h =>
  absurd
    (h iphoneWatchRecord (str ("iphone watch")) (str ("watch")) [str ("wearables")]
      (by decide) (by decide) (by decide))
    (by decide)

/-- C2 amended: the item is gated by the FIRST mapped token (in the order
iphone, ipad, galaxy, pixel, watch, iwatch) contained in the lowercased
query — if none of that token's allowed categories occurs in the item's
productCategory the item is rejected; tokens after the first are not
consulted.  In particular the two-item catalog behaves as the spec's
category-exclusivity example states. -/
theorem c2_gate_amended (r : SearchableRecord) (q tok : List Char)
    (cats : List (List Char))
    (hfirst : firstToken productTypeMapping (toLowerStr q) = some (tok, cats))
    (hcat : cats.any (fun cat => strIncludes (toLowerStr (getStr r.product_category)) cat)
      = false) :
    matchesQuery r (some q) = false ∧
    filterDevices [iPhone14, appleWatch9] { query := some (str ("iphone")) } = [iPhone14] ∧
    filterDevices [iPhone14, appleWatch9] { query := some (str ("watch")) } = [appleWatch9] := by
  refine ⟨?_, by decide, by decide⟩
  have hprops := firstToken_props _ _ _ _ hfirst
  have htok : tok ≠ [] := productTypeMapping_tokens_ne_nil _ _ hprops.2
  have hq : q ≠ [] := by
    intro hnil
    subst hnil
    have h0 : strIncludes [] tok = true := hprops.1
    cases tok with
    | nil => exact htok rfl
    | cons c cs => simp [strIncludes, strStartsWith] at h0
  have ht : truthy (some q) = true := by
    cases q with
    | nil => exact absurd rfl hq
    | cons c cs => rfl
  have hgl : gateLoop productTypeMapping (toLowerStr q)
      (toLowerStr (getStr r.product_category)) (toLowerStr (getStr r.title)) = some false :=
    gateLoop_firstToken_reject _ _ _ _ _ _ hfirst hcat
  simp [matchesQuery, ht, hgl]

/-- Witness for C2 amended: the query "watch" first hits the token "watch",
whose category "wearables" does not occur in the phone's category, so the
phone is rejected. -/
theorem c2_gate_amended_witness :
    matchesQuery (deviceSearchable iPhone14) (some (str ("watch"))) = false :=
  (c2_gate_amended (deviceSearchable iPhone14) (str ("watch")) (str ("watch"))
    [str ("wearables")] (by decide) (by decide)).1

/-- The Samsung Galaxy S24 Ultra device of the multi-word example. -/
def galaxyS24Ultra : DeviceRecord :=
  { id := str ("d5")
    title := str ("Samsung Galaxy S24 Ultra")
    brand := some (str ("Samsung"))
    product_category := some (str ("Mobile Phones")) }

/-- C5: an item titled "Samsung Galaxy S24 Ultra" whose productCategory
passes the "galaxy" gate matches the query "galaxy ultra" (every
whitespace-split word occurs in the title) and does not match
"galaxy flip". -/
theorem c5_multiword_conjunctive (r : SearchableRecord)
    (ht : r.title = some (str ("Samsung Galaxy S24 Ultra")))
    (hc : strIncludes (toLowerStr (getStr r.product_category)) (str ("mobile phones")) = true) :
    matchesQuery r (some (str ("galaxy ultra"))) = true ∧
      matchesQuery r (some (str ("galaxy flip"))) = false := by
  constructor
  · have egate : gateLoop productTypeMapping (toLowerStr (str ("galaxy ultra")))
        (toLowerStr (getStr r.product_category)) (toLowerStr (getStr r.title)) = some true := by
      rw [ht]
      simp only [getStr_some]
      simp [gateLoop, productTypeMapping, hc, show strIncludes (toLowerStr (str ("galaxy ultra"))) (str ("iphone")) = false from by decide, show strIncludes (toLowerStr (str ("galaxy ultra"))) (str ("ipad")) = false from by decide, show strIncludes (toLowerStr (str ("galaxy ultra"))) (str ("galaxy")) = true from by decide]
      decide
    simp [matchesQuery, egate, show truthy (some (str ("galaxy ultra"))) = true from by decide]
  · have egate : gateLoop productTypeMapping (toLowerStr (str ("galaxy flip")))
        (toLowerStr (getStr r.product_category)) (toLowerStr (getStr r.title)) = some false := by
      rw [ht]
      simp only [getStr_some]
      simp [gateLoop, productTypeMapping, hc, show strIncludes (toLowerStr (str ("galaxy flip"))) (str ("iphone")) = false from by decide, show strIncludes (toLowerStr (str ("galaxy flip"))) (str ("ipad")) = false from by decide, show strIncludes (toLowerStr (str ("galaxy flip"))) (str ("galaxy")) = true from by decide]
      decide
    simp [matchesQuery, egate, show truthy (some (str ("galaxy flip"))) = true from by decide]

/-- Witness for C5 at the concrete Galaxy S24 Ultra device. -/
theorem c5_multiword_conjunctive_witness :
    matchesQuery (deviceSearchable galaxyS24Ultra) (some (str ("galaxy ultra"))) = true ∧
      matchesQuery (deviceSearchable galaxyS24Ultra) (some (str ("galaxy flip"))) = false :=
  c5_multiword_conjunctive (deviceSearchable galaxyS24Ultra) rfl (by decide)
